import Mathlib

/-!
Shallow embedding of the gemini-deep-review pipeline: the rule loader
(src/rule-loader.ts), the prompt compiler, the review gateway
(src/gemini-reviewer.ts), the result formatter (src/formatter.ts) and the
CLI exit-code decision (src/cli.ts).  Filesystem access, the gray-matter
frontmatter split, JSON.parse and the remote model call are external
collaborators: they are modelled by passing their outcomes as inputs
(a parsed frontmatter record per file, an optional parsed response object).
All other logic is translated directly from the TypeScript source.
-/

/-- Severity enumeration of a review issue (src/types.ts). -/
inductive Severity
  | low
  | medium
  | high
  | critical
deriving DecidableEq

/-- Category enumeration of a review issue (src/types.ts). -/
inductive IssueCategory
  | correctness
  | performance
  | maintainability
  | bestPractice
deriving DecidableEq

/-- One finding returned by the remote model (interface ReviewIssue). -/
structure ReviewIssue where
  severity : Severity
  category : IssueCategory
  file : String
  line : Option Nat
  title : String
  description : String
  reasoning : String
  suggestion : Option String
  ruleId : Option String
deriving DecidableEq

/-- The result of one review call (interface ReviewResult). -/
structure ReviewResult where
  issues : List ReviewIssue
  summary : String
  overallScore : Int
  thinkingTrace : Option String
  filesReviewed : List String
  totalLines : Nat
deriving DecidableEq

/-- A rule record built by the loader (interface Rule).  The source
declares `type` with the union type RuleType, but the loader stores the
frontmatter value verbatim, so the field is modelled as a string. -/
structure Rule where
  id : String
  title : String
  type : String
  impact : String
  category : String
  tags : List String
  content : String
deriving DecidableEq

/-- A file submitted for review (interface FileToReview). -/
structure FileToReview where
  path : String
  content : String
  language : String
deriving DecidableEq

/-- The frontmatter data of one markdown rule file, as produced by the
external gray-matter split.  A missing key is `none`. -/
structure FrontMatter where
  id : Option String
  title : Option String
  type : Option String
  impact : Option String
  category : Option String
  tags : Option (List String)
deriving DecidableEq

/-- One markdown rule file after the external frontmatter split. -/
structure RuleFile where
  data : FrontMatter
  content : String
deriving DecidableEq

/-- JS truthiness of an optional string value: absent and the empty
string are falsy. -/
def truthyStr (o : Option String) : Bool :=
  match o with
  | none => false
  | some s => s != ""

/-- JS `x || d` on an optional string: yields `d` when `x` is absent or
empty, else `x`. -/
def jsOrStr (o : Option String) (d : String) : String :=
  match o with
  | none => d
  | some s => if s = "" then d else s

/-- JS `x || d` on an optional number: yields `d` when `x` is absent or
zero, else `x`. -/
def jsOrNum (o : Option Int) (d : Int) : Int :=
  match o with
  | none => d
  | some n => if n = 0 then d else n

/-- The JS String.prototype.trim of the source: drops the leading and
trailing whitespace of a string and keeps everything in between. -/
def jsTrim (s : String) : String :=
  String.mk (((s.data.dropWhile Char.isWhitespace).reverse.dropWhile Char.isWhitespace).reverse)

/-- Occurrence of a character sequence inside another one (used to state
what an error message does or does not contain). -/
def occursIn (needle hay : List Char) : Bool :=
  match hay with
  | [] => needle == []
  | _ :: t => needle.isPrefixOf hay || occursIn needle t

namespace RuleLoader

/-- Rule construction from frontmatter data and body, mirroring the
record literal at rule-loader.ts lines 59-67.  The caller has already
checked that `data.id` and `data.title` are truthy. -/
def mkRule (data : FrontMatter) (content : String) : Rule :=
  { id := data.id.getD ""
  , title := data.title.getD ""
  , type := jsOrStr data.type "principle"
  , impact := jsOrStr data.impact "MEDIUM"
  , category := jsOrStr data.category "general"
  , tags := data.tags.getD []
  , content := jsTrim content }

/-- loadRuleFile (rule-loader.ts lines 49-73): files missing a truthy
`id` or `title` are skipped, otherwise the built rule is pushed. -/
def loadRuleFile (rules : List Rule) (f : RuleFile) : List Rule :=
  if !truthyStr f.data.id || !truthyStr f.data.title then rules
  else rules ++ [mkRule f.data f.content]

/-- loadRules over the sequence of markdown files the directory scan
yields (rule-loader.ts lines 17-22): the collection is rebuilt from
empty and each file is loaded in turn. -/
def loadRules (files : List RuleFile) : List Rule :=
  files.foldl loadRuleFile []

/-- getRulesByTags (rule-loader.ts lines 78-82). -/
def getRulesByTags (rules : List Rule) (tags : List String) : List Rule :=
  rules.filter (fun rule => tags.any (fun tag => rule.tags.contains tag))

/-- getRules (rule-loader.ts lines 147-149): snapshot of the loaded
collection. -/
def getRules (rules : List Rule) : List Rule :=
  rules

/-- The fallback text returned when no rules apply (line 92). -/
def noRulesFallback : String :=
  "No specific rules loaded. Use general React and TypeScript best practices."

/-- Header of the principles section (lines 102-108). -/
def principlesHeader : String :=
  "\n# GUIDING PRINCIPLES (Use these to guide your deep thinking)\n\nThese principles should inform your analysis. Use your expertise to discover\nissues related to these concepts. Think deeply and reason about implications.\n\n"

/-- One rendered principle block (lines 110-117). -/
def principleBlock (rule : Rule) : String :=
  "\n## " ++ rule.title ++ "\n**Focus Area:** " ++ rule.category ++ " | **Priority:** " ++ rule.impact ++ "\n\n" ++ rule.content ++ "\n\n---\n"

/-- Header of the requirements section (lines 123-128). -/
def requirementsHeader : String :=
  "\n# STRICT REQUIREMENTS (Always enforce these)\n\nThese are team-specific standards that MUST be followed. Flag any violations.\n\n"

/-- One rendered requirement block (lines 130-137). -/
def requirementBlock (rule : Rule) : String :=
  "\n## " ++ rule.title ++ "\n**Rule ID:** " ++ rule.id ++ " | **Priority:** " ++ rule.impact ++ "\n\n" ++ rule.content ++ "\n\n---\n"

/-- The rule set compileRulesForPrompt works on (line 89): the filtered
set when tags are given, the full collection otherwise. -/
def rulesToUse (rules : List Rule) (tags : Option (List String)) : List Rule :=
  match tags with
  | some ts => getRulesByTags rules ts
  | none => rules

/-- compileRulesForPrompt (rule-loader.ts lines 88-142), translated
statement by statement: empty-set fallback, then the two filters and the
two conditional section appends accumulated into `output`. -/
def compileRulesForPrompt (rules : List Rule) (tags : Option (List String)) : String :=
  let toUse := rulesToUse rules tags
  if toUse.length = 0 then
    noRulesFallback
  else
    let principles := toUse.filter (fun r => r.type == "principle")
    let requirements := toUse.filter (fun r => r.type == "requirement")
    let output : String := ""
    let output :=
      if principles.length > 0 then
        principles.foldl (fun acc rule => acc ++ principleBlock rule) (output ++ principlesHeader)
      else output
    let output :=
      if requirements.length > 0 then
        requirements.foldl (fun acc rule => acc ++ requirementBlock rule) (output ++ requirementsHeader)
      else output
    output

/-- The principles section as a standalone value: the header followed by
the blocks of the given rules in order when the bucket is non-empty,
nothing at all (not even the header) when it is empty. -/
def principlesSection (ps : List Rule) : String :=
  if ps = [] then ""
  else ps.foldl (fun acc rule => acc ++ principleBlock rule) principlesHeader

/-- The requirements section as a standalone value: the header followed
by the blocks of the given rules in order when the bucket is non-empty,
nothing at all (not even the header) when it is empty. -/
def requirementsSection (qs : List Rule) : String :=
  if qs = [] then ""
  else qs.foldl (fun acc rule => acc ++ requirementBlock rule) requirementsHeader

end RuleLoader

namespace GeminiReviewer

/-- The shape of a successfully parsed JSON response payload: the three
top-level keys the schema declares, each possibly absent. -/
structure ReviewData where
  issues : Option (List ReviewIssue)
  summary : Option String
  overallScore : Option Int
deriving DecidableEq

/-- Outcome of one reviewCode call: the value returned or the message of
the thrown error, together with the console error lines emitted. -/
structure CallOutcome where
  result : Except String ReviewResult
  errorLog : List String

/-- reviewCode (gemini-reviewer.ts lines 19-77) from the point the raw
response text is in hand.  `parsed` is the outcome of the external
JSON.parse on `text` (`none` when the payload is not valid JSON), and
`trace` is the optional thinking trace extracted from response metadata.
On parse failure the inner catch logs the offending text and throws the
fixed message, which the outer catch logs and rewraps; on success the
result record is built with the JS `||` defaults. -/
def reviewCode (files : List FileToReview) (parsed : Option ReviewData)
    (text : String) (trace : Option String) : CallOutcome :=
  match parsed with
  | none =>
      { result := Except.error ("Failed to review code: " ++ "Invalid JSON response from Gemini")
      , errorLog :=
          [ "Failed to parse JSON response: " ++ text
          , "Gemini API error: " ++ "Invalid JSON response from Gemini" ] }
  | some reviewData =>
      { result := Except.ok
          { issues := reviewData.issues.getD []
          , summary := jsOrStr reviewData.summary "No summary provided"
          , overallScore := jsOrNum reviewData.overallScore 0
          , thinkingTrace := trace
          , filesReviewed := files.map (fun f => f.path)
          , totalLines := files.foldl (fun sum f => sum + (f.content.splitOn "\n").length) 0 }
      , errorLog := [] }

end GeminiReviewer

namespace ResultFormatter

/-- The four severity buckets produced by groupBySeverity. -/
structure SeverityGroups where
  critical : List ReviewIssue
  high : List ReviewIssue
  medium : List ReviewIssue
  low : List ReviewIssue
deriving DecidableEq

/-- groupBySeverity (formatter.ts lines 180-187). -/
def groupBySeverity (issues : List ReviewIssue) : SeverityGroups :=
  { critical := issues.filter (fun i => i.severity == Severity.critical)
  , high := issues.filter (fun i => i.severity == Severity.high)
  , medium := issues.filter (fun i => i.severity == Severity.medium)
  , low := issues.filter (fun i => i.severity == Severity.low) }

end ResultFormatter

namespace Cli

/-- The three terminal branches of the exit-code decision. -/
inductive ExitDecision
  | failCritical
  | passWithWarnings
  | pass
deriving DecidableEq

/-- The decision at cli.ts lines 104-117: critical issues fail the
review, otherwise high-severity issues pass with a warning banner,
otherwise the review passes. -/
def exitDecision (result : ReviewResult) : ExitDecision :=
  let hasCritical := result.issues.any (fun i => i.severity == Severity.critical)
  let hasHigh := result.issues.any (fun i => i.severity == Severity.high)
  if hasCritical then ExitDecision.failCritical
  else if hasHigh then ExitDecision.passWithWarnings
  else ExitDecision.pass

/-- The process exit code of each decision branch. -/
def exitCode : ExitDecision → Nat
  | ExitDecision.failCritical => 1
  | ExitDecision.passWithWarnings => 0
  | ExitDecision.pass => 0

end Cli

/-- A sample principle rule, in the shape of the repository rule files. -/
def samplePrincipleRule : Rule :=
  { id := "react-performance-principles"
  , title := "React Performance Principles"
  , type := "principle"
  , impact := "HIGH"
  , category := "performance"
  , tags := ["react"]
  , content := "Avoid async waterfalls." }

/-- A sample requirement rule, in the shape of the repository rule files. -/
def sampleRequirementRule : Rule :=
  { id := "team-strict-requirements"
  , title := "Team Strict Requirements"
  , type := "requirement"
  , impact := "CRITICAL"
  , category := "team"
  , tags := ["team"]
  , content := "Always clean up effects." }

/-- A sample critical review issue. -/
def sampleIssueCritical : ReviewIssue :=
  { severity := Severity.critical
  , category := IssueCategory.correctness
  , file := "src/components/TodoList.tsx"
  , line := some 3
  , title := "Possible crash"
  , description := "Null access on user."
  , reasoning := "The value can be null after a failed fetch."
  , suggestion := none
  , ruleId := none }

/-- A sample high-severity review issue. -/
def sampleIssueHigh : ReviewIssue :=
  { severity := Severity.high
  , category := IssueCategory.performance
  , file := "src/components/TodoList.tsx"
  , line := none
  , title := "Async waterfall"
  , description := "Sequential awaits on independent fetches."
  , reasoning := "Page load becomes the sum of both round trips."
  , suggestion := some "Use Promise.all."
  , ruleId := some "react-performance-principles" }

/-- A sample well-formed rule file. -/
def sampleFileGood : RuleFile :=
  { data :=
      { id := some "r-a"
      , title := some "A"
      , type := some "principle"
      , impact := none
      , category := none
      , tags := some ["react"] }
  , content := "Body A." }

/-- A second sample well-formed rule file. -/
def sampleFileGoodB : RuleFile :=
  { data :=
      { id := some "r-b"
      , title := some "B"
      , type := some "requirement"
      , impact := some "HIGH"
      , category := some "team"
      , tags := some ["team"] }
  , content := "Body B." }

/-- A sample rule file whose frontmatter lacks the title field. -/
def sampleFileNoTitle : RuleFile :=
  { data :=
      { id := some "r-c"
      , title := none
      , type := none
      , impact := none
      , category := none
      , tags := none }
  , content := "Body C." }

/-- A sample rule file carrying only the two required frontmatter
fields. -/
def sampleMinimalFile : RuleFile :=
  { data :=
      { id := some "x"
      , title := some "T"
      , type := none
      , impact := none
      , category := none
      , tags := none }
  , content := "  hello\n" }

/-- A sample rule file mixing specified and unspecified optional
fields, in the shape of the repository file
rules/typescript/type-safety.md: impact, category and tags are given
while type is absent. -/
def sampleMixedFile : RuleFile :=
  { data :=
      { id := some "typescript-type-safety"
      , title := some "TypeScript type safety and common pitfalls"
      , type := none
      , impact := some "HIGH"
      , category := some "correctness"
      , tags := some ["typescript", "types", "safety"] }
  , content := "\n## Problem\nImproper TypeScript usage defeats the purpose of type safety.\n" }

/-- A sample file submitted for review. -/
def sampleReviewFile : FileToReview :=
  { path := "src/components/TodoList.tsx"
  , content := "line1\nline2"
  , language := "tsx" }

/-- A sample parsed response payload with all three keys absent. -/
def sampleEmptyReviewData : GeminiReviewer.ReviewData :=
  { issues := none, summary := none, overallScore := none }

/-- A sample parsed response payload carrying two issues. -/
def sampleIssueReviewData : GeminiReviewer.ReviewData :=
  { issues := some [sampleIssueCritical, sampleIssueHigh]
  , summary := none
  , overallScore := none }

/-- A sample frontmatter record whose type value is neither principle
nor requirement. -/
def sampleWeirdFrontMatter : FrontMatter :=
  { id := some "g1"
  , title := some "G"
  , type := some "guideline"
  , impact := none
  , category := none
  , tags := none }

/-- Factoring the already-accumulated prefix out of a block-appending
fold over a list of rules. -/
theorem foldl_append_factor {α : Type} (f : α → String) (l : List α) :
    ∀ a b : String,
      l.foldl (fun acc x => acc ++ f x) (a ++ b) =
        a ++ l.foldl (fun acc x => acc ++ f x) b := by
  induction l with
  | nil => intro a b; rfl
  | cons x t ih =>
      intro a b
      simp only [List.foldl_cons]
      rw [String.append_assoc]
      exact ih a (b ++ f x)

/-- A fold that adds a measure of each element equals the start value
plus the sum of the measures. -/
theorem foldl_add_map_sum {α : Type} (g : α → Nat) (l : List α) :
    ∀ n : Nat, l.foldl (fun s x => s + g x) n = n + (l.map g).sum := by
  induction l with
  | nil => intro n; simp
  | cons x t ih =>
      intro n
      simp only [List.foldl_cons, List.map_cons, List.sum_cons, ih]
      omega

/-- The four severity filters of a list of issues count every issue
exactly once. -/
theorem severity_filter_count (issues : List ReviewIssue) :
    (issues.filter (fun i => i.severity == Severity.critical)).length +
      (issues.filter (fun i => i.severity == Severity.high)).length +
      (issues.filter (fun i => i.severity == Severity.medium)).length +
      (issues.filter (fun i => i.severity == Severity.low)).length =
      issues.length := by
  induction issues with
  | nil => rfl
  | cons i t ih =>
      cases hs : i.severity <;>
        simp [List.filter_cons, hs] <;> omega

/-- A list is a prefix of itself. -/
theorem isPrefixOf_self {α : Type} [BEq α] [LawfulBEq α] (l : List α) :
    l.isPrefixOf l = true := by
  induction l with
  | nil => rfl
  | cons a t ih => simp [List.isPrefixOf, ih]

/-- A character sequence occurs in any extension of itself to the
left. -/
theorem occursIn_append_self (pre l : List Char) : occursIn l (pre ++ l) = true := by
  induction pre with
  | nil =>
      cases l with
      | nil => rfl
      | cons c t => simp [occursIn, isPrefixOf_self]
  | cons c p ih => simp [occursIn, ih]

/-- On a non-empty working set, compileRulesForPrompt is the principles
section followed by the requirements section, each rendered from its
stable filter of the working set. -/
theorem compile_eq_sections (rules : List Rule) (tags : Option (List String))
    (h : RuleLoader.rulesToUse rules tags ≠ []) :
    RuleLoader.compileRulesForPrompt rules tags =
      RuleLoader.principlesSection
        ((RuleLoader.rulesToUse rules tags).filter (fun r => r.type == "principle")) ++
      RuleLoader.requirementsSection
        ((RuleLoader.rulesToUse rules tags).filter (fun r => r.type == "requirement")) := by
  have h0 : ¬ ((RuleLoader.rulesToUse rules tags).length = 0) := by
    simpa [List.length_eq_zero] using h
  unfold RuleLoader.compileRulesForPrompt RuleLoader.principlesSection
    RuleLoader.requirementsSection
  simp only [if_neg h0]
  by_cases hP : (RuleLoader.rulesToUse rules tags).filter (fun r => r.type == "principle") = []
  · by_cases hQ : (RuleLoader.rulesToUse rules tags).filter (fun r => r.type == "requirement") = []
    · simp [hP, hQ]
    · simp [hP, hQ, List.length_pos, String.empty_append]
  · by_cases hQ : (RuleLoader.rulesToUse rules tags).filter (fun r => r.type == "requirement") = []
    · simp [hP, hQ, List.length_pos, String.empty_append, String.append_empty]
    · have hp1 : 0 < ((RuleLoader.rulesToUse rules tags).filter (fun r => r.type == "principle")).length :=
        List.length_pos.mpr hP
      have hq1 : 0 < ((RuleLoader.rulesToUse rules tags).filter (fun r => r.type == "requirement")).length :=
        List.length_pos.mpr hQ
      simp only [if_pos hp1, if_pos hq1, String.empty_append, if_neg hP, if_neg hQ]
      rw [foldl_append_factor]

/-- C2: for every Review Result, the CLI exit-code decision selects
exit code 1 exactly when some issue has severity critical, selects exit
code 0 with a warning indication exactly when no issue is critical but
some issue is high, and selects a plain exit code 0 otherwise. -/
theorem c2_exit_code_decision (result : ReviewResult) :
    (Cli.exitDecision result = Cli.ExitDecision.failCritical ↔
      ∃ i ∈ result.issues, i.severity = Severity.critical) ∧
    (Cli.exitDecision result = Cli.ExitDecision.passWithWarnings ↔
      ((¬ ∃ i ∈ result.issues, i.severity = Severity.critical) ∧
        ∃ i ∈ result.issues, i.severity = Severity.high)) ∧
    (Cli.exitDecision result = Cli.ExitDecision.pass ↔
      ((¬ ∃ i ∈ result.issues, i.severity = Severity.critical) ∧
        ¬ ∃ i ∈ result.issues, i.severity = Severity.high)) ∧
    Cli.exitCode Cli.ExitDecision.failCritical = 1 ∧
    Cli.exitCode Cli.ExitDecision.passWithWarnings = 0 ∧
    Cli.exitCode Cli.ExitDecision.pass = 0 := by
  unfold Cli.exitDecision
  cases hc : result.issues.any (fun i => i.severity == Severity.critical) <;>
    cases hh : result.issues.any (fun i => i.severity == Severity.high) <;>
      simp_all [List.any_eq_true, Cli.exitCode]

/-- C3: getRulesByTags returns exactly the rules whose tag set meets the
given tag list (a rule is kept iff at least one of its tags occurs in
the list), and the returned rules keep the loaded order. -/
theorem c3_getRulesByTags_any_match (rules : List Rule) (tags : List String) :
    (RuleLoader.getRulesByTags rules tags).Sublist rules ∧
    ∀ r : Rule, r ∈ RuleLoader.getRulesByTags rules tags ↔
      (r ∈ rules ∧ ∃ t ∈ tags, t ∈ r.tags) := by
  refine ⟨List.filter_sublist rules, fun r => ?_⟩
  simp [RuleLoader.getRulesByTags, List.mem_filter, List.any_eq_true]

/-- C5: whenever the working rule set is empty, compileRulesForPrompt
returns the fixed non-empty fallback text and never the empty string. -/
theorem c5_compile_empty_fallback (rules : List Rule) (tags : Option (List String))
    (h : RuleLoader.rulesToUse rules tags = []) :
    RuleLoader.compileRulesForPrompt rules tags =
      "No specific rules loaded. Use general React and TypeScript best practices." ∧
    RuleLoader.compileRulesForPrompt rules tags ≠ "" := by
  have hc : RuleLoader.compileRulesForPrompt rules tags = RuleLoader.noRulesFallback := by
    unfold RuleLoader.compileRulesForPrompt
    simp [h]
  rw [hc]
  exact ⟨rfl, by decide⟩

/-- C6: a rule file whose frontmatter lacks id or title is skipped by
the load pass: the loaded collection is the one obtained from the other
files alone, so the skipped file is absent, is not counted, and the
files after it are still loaded. -/
theorem c6_missing_frontmatter_skipped (pre post : List RuleFile) (f : RuleFile)
    (h : f.data.id = none ∨ f.data.title = none) :
    RuleLoader.loadRules (pre ++ f :: post) = RuleLoader.loadRules (pre ++ post) := by
  unfold RuleLoader.loadRules
  rw [List.foldl_append, List.foldl_append, List.foldl_cons]
  have hskip : ∀ s : List Rule, RuleLoader.loadRuleFile s f = s := by
    intro s
    rcases h with h | h <;> simp [RuleLoader.loadRuleFile, truthyStr, h]
  rw [hskip]

/-- C7: every rule file that loads successfully (truthy id and title)
appends exactly one rule, and each optional frontmatter field that is
unspecified takes its documented default: type principle, impact
MEDIUM, category general, tags empty; the rule content is always the
body with surrounding whitespace dropped. -/
theorem c7_frontmatter_defaults (rules : List Rule) (f : RuleFile)
    (hid : truthyStr f.data.id = true) (htitle : truthyStr f.data.title = true) :
    ∃ r : Rule,
      RuleLoader.loadRuleFile rules f = rules ++ [r] ∧
      (f.data.type = none → r.type = "principle") ∧
      (f.data.impact = none → r.impact = "MEDIUM") ∧
      (f.data.category = none → r.category = "general") ∧
      (f.data.tags = none → r.tags = []) ∧
      r.content = jsTrim f.content := by
  refine ⟨RuleLoader.mkRule f.data f.content, ?_, ?_, ?_, ?_, ?_, rfl⟩
  · simp [RuleLoader.loadRuleFile, hid, htitle]
  · intro h; simp [RuleLoader.mkRule, h, jsOrStr]
  · intro h; simp [RuleLoader.mkRule, h, jsOrStr]
  · intro h; simp [RuleLoader.mkRule, h, jsOrStr]
  · intro h; simp [RuleLoader.mkRule, h]

/-- C4: on a non-empty working rule set the compiled prompt is the
principles section followed by the requirements section, each section
rendering the stable filter of the working set (so every principle
block stands strictly before every requirement block, each bucket keeps
the original relative order, and an empty bucket contributes nothing,
not even its header); the working set itself keeps the loaded order. -/
theorem c4_compile_sections_order (rules : List Rule) (tags : Option (List String))
    (h : RuleLoader.rulesToUse rules tags ≠ []) :
    RuleLoader.compileRulesForPrompt rules tags =
      RuleLoader.principlesSection
        ((RuleLoader.rulesToUse rules tags).filter (fun r => r.type == "principle")) ++
      RuleLoader.requirementsSection
        ((RuleLoader.rulesToUse rules tags).filter (fun r => r.type == "requirement")) ∧
    ((RuleLoader.rulesToUse rules tags).filter (fun r => r.type == "principle")).Sublist
      (RuleLoader.rulesToUse rules tags) ∧
    ((RuleLoader.rulesToUse rules tags).filter (fun r => r.type == "requirement")).Sublist
      (RuleLoader.rulesToUse rules tags) ∧
    (RuleLoader.rulesToUse rules tags).Sublist rules := by
  refine ⟨compile_eq_sections rules tags h, List.filter_sublist _, List.filter_sublist _, ?_⟩
  cases tags with
  | none => exact List.Sublist.refl rules
  | some ts => exact List.filter_sublist rules

/-- C1 counterexample: at the payload text oops the thrown error
message is the fixed wrapper text and does not contain the offending
payload, contradicting the claim that the message includes a preview of
the payload. -/
theorem c1_error_message_counterexample :
    (GeminiReviewer.reviewCode [] none "oops" none).result =
      Except.error "Failed to review code: Invalid JSON response from Gemini" ∧
    occursIn "oops".data
        "Failed to review code: Invalid JSON response from Gemini".data = false :=
  ⟨rfl, by decide⟩

/-- C1 (amended): for every response payload that is not valid JSON,
reviewCode throws, never returning a Review Result; the thrown message
is the fixed wrapper text (which does not embed the payload), while the
full payload, untruncated, is written to the console error log. -/
theorem c1_parse_failure_fixed_message (files : List FileToReview) (text : String)
    (trace : Option String) :
    (GeminiReviewer.reviewCode files none text trace).result =
      Except.error "Failed to review code: Invalid JSON response from Gemini" ∧
    (GeminiReviewer.reviewCode files none text trace).errorLog =
      [ "Failed to parse JSON response: " ++ text
      , "Gemini API error: Invalid JSON response from Gemini" ] ∧
    occursIn text.data ("Failed to parse JSON response: " ++ text).data = true := by
  refine ⟨rfl, rfl, ?_⟩
  rw [String.data_append]
  exact occursIn_append_self _ _

/-- C8: for every successfully parsed response object, reviewCode
returns a Review Result whose missing top-level fields take their
defaults (issues the empty sequence, summary the placeholder text,
overallScore zero), whose filesReviewed lists the input file paths, and
whose totalLines is the sum over the input files of their
newline-separated line counts. -/
theorem c8_response_normalization (files : List FileToReview)
    (data : GeminiReviewer.ReviewData) (text : String) (trace : Option String) :
    ∃ r : ReviewResult,
      (GeminiReviewer.reviewCode files (some data) text trace).result = Except.ok r ∧
      (data.issues = none → r.issues = []) ∧
      (data.summary = none → r.summary = "No summary provided") ∧
      (data.overallScore = none → r.overallScore = 0) ∧
      r.filesReviewed = files.map (fun f => f.path) ∧
      r.totalLines = (files.map (fun f => (f.content.splitOn "\n").length)).sum := by
  refine ⟨_, rfl, ?_, ?_, ?_, rfl, ?_⟩
  · intro h; simp [h]
  · intro h; simp [h, jsOrStr]
  · intro h; simp [h, jsOrNum]
  · simpa using foldl_add_map_sum (fun f => (f.content.splitOn "\n").length) files 0

/-- C9: a Review Result built from a parsed response carrying N issues
passes them through unchanged (same list, same length), and grouping by
severity partitions them exhaustively and disjointly: the four bucket
sizes sum to N and each bucket holds only issues of its severity. -/
theorem c9_issue_passthrough_partition (files : List FileToReview)
    (data : GeminiReviewer.ReviewData) (text : String) (trace : Option String)
    (issues : List ReviewIssue) (h : data.issues = some issues) :
    ∃ r : ReviewResult,
      (GeminiReviewer.reviewCode files (some data) text trace).result = Except.ok r ∧
      r.issues = issues ∧
      r.issues.length = issues.length ∧
      ((ResultFormatter.groupBySeverity r.issues).critical.length +
        (ResultFormatter.groupBySeverity r.issues).high.length +
        (ResultFormatter.groupBySeverity r.issues).medium.length +
        (ResultFormatter.groupBySeverity r.issues).low.length = issues.length) ∧
      (∀ i ∈ (ResultFormatter.groupBySeverity r.issues).critical, i.severity = Severity.critical) ∧
      (∀ i ∈ (ResultFormatter.groupBySeverity r.issues).high, i.severity = Severity.high) ∧
      (∀ i ∈ (ResultFormatter.groupBySeverity r.issues).medium, i.severity = Severity.medium) ∧
      (∀ i ∈ (ResultFormatter.groupBySeverity r.issues).low, i.severity = Severity.low) := by
  have hiss : (GeminiReviewer.ReviewData.issues data).getD [] = issues := by
    rw [h]; rfl
  refine ⟨_, rfl, hiss, by rw [hiss], ?_, ?_, ?_, ?_, ?_⟩
  · simp only [ResultFormatter.groupBySeverity, hiss]
    exact severity_filter_count issues
  · simp [ResultFormatter.groupBySeverity, hiss, List.mem_filter]
  · simp [ResultFormatter.groupBySeverity, hiss, List.mem_filter]
  · simp [ResultFormatter.groupBySeverity, hiss, List.mem_filter]
  · simp [ResultFormatter.groupBySeverity, hiss, List.mem_filter]

/-- C10: a loaded rule whose frontmatter type is a truthy string other
than principle or requirement keeps that string verbatim, is counted by
getRules, yet falls in neither bucket of compileRulesForPrompt: the
compiled output is exactly the one rendered from the other rules. -/
theorem c10_nonstandard_type_omitted (pre post : List Rule) (d : FrontMatter)
    (c : String) (t : String)
    (hid : truthyStr d.id = true) (htitle : truthyStr d.title = true)
    (htype : d.type = some t) (ht0 : t ≠ "")
    (h1 : t ≠ "principle") (h2 : t ≠ "requirement") :
    RuleLoader.loadRuleFile pre { data := d, content := c } =
      pre ++ [RuleLoader.mkRule d c] ∧
    (RuleLoader.mkRule d c).type = t ∧
    (RuleLoader.getRules (pre ++ RuleLoader.mkRule d c :: post)).length =
      pre.length + post.length + 1 ∧
    RuleLoader.compileRulesForPrompt (pre ++ RuleLoader.mkRule d c :: post) none =
      RuleLoader.principlesSection
        ((pre ++ post).filter (fun r => r.type == "principle")) ++
      RuleLoader.requirementsSection
        ((pre ++ post).filter (fun r => r.type == "requirement")) := by
  have htyp : (RuleLoader.mkRule d c).type = t := by
    simp [RuleLoader.mkRule, htype, jsOrStr, ht0]
  refine ⟨?_, htyp, ?_, ?_⟩
  · simp [RuleLoader.loadRuleFile, hid, htitle]
  · simp [RuleLoader.getRules]
    omega
  · have hnil : RuleLoader.rulesToUse (pre ++ RuleLoader.mkRule d c :: post) none ≠ [] := by
      simp [RuleLoader.rulesToUse]
    rw [compile_eq_sections _ _ hnil]
    have hbp : ((RuleLoader.mkRule d c).type == "principle") = false := by
      rw [htyp]; exact beq_eq_false_iff_ne.mpr h1
    have hbq : ((RuleLoader.mkRule d c).type == "requirement") = false := by
      rw [htyp]; exact beq_eq_false_iff_ne.mpr h2
    have hfp : (pre ++ RuleLoader.mkRule d c :: post).filter (fun r => r.type == "principle") =
        (pre ++ post).filter (fun r => r.type == "principle") := by
      simp [List.filter_append, List.filter_cons, hbp]
    have hfq : (pre ++ RuleLoader.mkRule d c :: post).filter (fun r => r.type == "requirement") =
        (pre ++ post).filter (fun r => r.type == "requirement") := by
      simp [List.filter_append, List.filter_cons, hbq]
    show RuleLoader.principlesSection
        ((RuleLoader.rulesToUse (pre ++ RuleLoader.mkRule d c :: post) none).filter
          (fun r => r.type == "principle")) ++
      RuleLoader.requirementsSection
        ((RuleLoader.rulesToUse (pre ++ RuleLoader.mkRule d c :: post) none).filter
          (fun r => r.type == "requirement")) = _
    unfold RuleLoader.rulesToUse
    rw [hfp, hfq]

/-- C4 witness: the section decomposition at a concrete two-rule set. -/
theorem c4_compile_sections_order_witness :
    RuleLoader.rulesToUse [samplePrincipleRule, sampleRequirementRule] none ≠ [] ∧
    (RuleLoader.compileRulesForPrompt [samplePrincipleRule, sampleRequirementRule] none =
        RuleLoader.principlesSection
          ((RuleLoader.rulesToUse [samplePrincipleRule, sampleRequirementRule] none).filter
            (fun r => r.type == "principle")) ++
        RuleLoader.requirementsSection
          ((RuleLoader.rulesToUse [samplePrincipleRule, sampleRequirementRule] none).filter
            (fun r => r.type == "requirement")) ∧
      ((RuleLoader.rulesToUse [samplePrincipleRule, sampleRequirementRule] none).filter
        (fun r => r.type == "principle")).Sublist
        (RuleLoader.rulesToUse [samplePrincipleRule, sampleRequirementRule] none) ∧
      ((RuleLoader.rulesToUse [samplePrincipleRule, sampleRequirementRule] none).filter
        (fun r => r.type == "requirement")).Sublist
        (RuleLoader.rulesToUse [samplePrincipleRule, sampleRequirementRule] none) ∧
      (RuleLoader.rulesToUse [samplePrincipleRule, sampleRequirementRule] none).Sublist
        [samplePrincipleRule, sampleRequirementRule]) :=
  ⟨by decide,
    c4_compile_sections_order [samplePrincipleRule, sampleRequirementRule] none (by decide)⟩

/-- C5 witness: the fallback at a concrete rule set none of whose rules
matches the requested tag. -/
theorem c5_compile_empty_fallback_witness :
    RuleLoader.rulesToUse [samplePrincipleRule] (some ["nomatch"]) = [] ∧
    (RuleLoader.compileRulesForPrompt [samplePrincipleRule] (some ["nomatch"]) =
        "No specific rules loaded. Use general React and TypeScript best practices." ∧
      RuleLoader.compileRulesForPrompt [samplePrincipleRule] (some ["nomatch"]) ≠ "") :=
  ⟨by decide,
    c5_compile_empty_fallback [samplePrincipleRule] (some ["nomatch"]) (by decide)⟩

/-- C6 witness: a concrete load pass over a valid file, a file lacking
its title, and a second valid file. -/
theorem c6_missing_frontmatter_skipped_witness :
    (sampleFileNoTitle.data.id = none ∨ sampleFileNoTitle.data.title = none) ∧
    RuleLoader.loadRules ([sampleFileGood] ++ sampleFileNoTitle :: [sampleFileGoodB]) =
      RuleLoader.loadRules ([sampleFileGood] ++ [sampleFileGoodB]) :=
  ⟨Or.inr rfl,
    c6_missing_frontmatter_skipped [sampleFileGood] [sampleFileGoodB] sampleFileNoTitle
      (Or.inr rfl)⟩

/-- C7 witness: the per-field defaults at a concrete mixed file that
specifies impact, category and tags but omits type, after the
repository file rules/typescript/type-safety.md. -/
theorem c7_frontmatter_defaults_witness :
    truthyStr sampleMixedFile.data.id = true ∧
    truthyStr sampleMixedFile.data.title = true ∧
    ∃ r : Rule,
      RuleLoader.loadRuleFile [] sampleMixedFile = [] ++ [r] ∧
      (sampleMixedFile.data.type = none → r.type = "principle") ∧
      (sampleMixedFile.data.impact = none → r.impact = "MEDIUM") ∧
      (sampleMixedFile.data.category = none → r.category = "general") ∧
      (sampleMixedFile.data.tags = none → r.tags = []) ∧
      r.content = jsTrim sampleMixedFile.content :=
  ⟨rfl, rfl, c7_frontmatter_defaults [] sampleMixedFile rfl rfl⟩

/-- C8 witness: the normalization at a concrete file and a parsed
payload with every key absent. -/
theorem c8_response_normalization_witness :
    ∃ r : ReviewResult,
      (GeminiReviewer.reviewCode [sampleReviewFile] (some sampleEmptyReviewData)
          "x" none).result = Except.ok r ∧
      (sampleEmptyReviewData.issues = none → r.issues = []) ∧
      (sampleEmptyReviewData.summary = none → r.summary = "No summary provided") ∧
      (sampleEmptyReviewData.overallScore = none → r.overallScore = 0) ∧
      r.filesReviewed = [sampleReviewFile].map (fun f => f.path) ∧
      r.totalLines = ([sampleReviewFile].map (fun f => (f.content.splitOn "\n").length)).sum :=
  c8_response_normalization [sampleReviewFile] sampleEmptyReviewData "x" none

/-- C9 witness: the pass-through and partition at a concrete payload
carrying one critical and one high issue. -/
theorem c9_issue_passthrough_partition_witness :
    sampleIssueReviewData.issues = some [sampleIssueCritical, sampleIssueHigh] ∧
    ∃ r : ReviewResult,
      (GeminiReviewer.reviewCode [] (some sampleIssueReviewData) "x" none).result =
        Except.ok r ∧
      r.issues = [sampleIssueCritical, sampleIssueHigh] ∧
      r.issues.length = [sampleIssueCritical, sampleIssueHigh].length ∧
      ((ResultFormatter.groupBySeverity r.issues).critical.length +
        (ResultFormatter.groupBySeverity r.issues).high.length +
        (ResultFormatter.groupBySeverity r.issues).medium.length +
        (ResultFormatter.groupBySeverity r.issues).low.length =
        [sampleIssueCritical, sampleIssueHigh].length) ∧
      (∀ i ∈ (ResultFormatter.groupBySeverity r.issues).critical,
        i.severity = Severity.critical) ∧
      (∀ i ∈ (ResultFormatter.groupBySeverity r.issues).high, i.severity = Severity.high) ∧
      (∀ i ∈ (ResultFormatter.groupBySeverity r.issues).medium,
        i.severity = Severity.medium) ∧
      (∀ i ∈ (ResultFormatter.groupBySeverity r.issues).low, i.severity = Severity.low) :=
  ⟨rfl,
    c9_issue_passthrough_partition [] sampleIssueReviewData "x" none
      [sampleIssueCritical, sampleIssueHigh] rfl⟩

/-- C10 witness: a concrete rule whose frontmatter type is the string
guideline, loaded between a principle and a requirement. -/
theorem c10_nonstandard_type_omitted_witness :
    truthyStr sampleWeirdFrontMatter.id = true ∧
    truthyStr sampleWeirdFrontMatter.title = true ∧
    sampleWeirdFrontMatter.type = some "guideline" ∧
    "guideline" ≠ "" ∧
    "guideline" ≠ "principle" ∧
    "guideline" ≠ "requirement" ∧
    (RuleLoader.loadRuleFile [samplePrincipleRule]
        { data := sampleWeirdFrontMatter, content := "body" } =
      [samplePrincipleRule] ++ [RuleLoader.mkRule sampleWeirdFrontMatter "body"] ∧
    (RuleLoader.mkRule sampleWeirdFrontMatter "body").type = "guideline" ∧
    (RuleLoader.getRules
        ([samplePrincipleRule] ++
          RuleLoader.mkRule sampleWeirdFrontMatter "body" :: [sampleRequirementRule])).length =
      [samplePrincipleRule].length + [sampleRequirementRule].length + 1 ∧
    RuleLoader.compileRulesForPrompt
        ([samplePrincipleRule] ++
          RuleLoader.mkRule sampleWeirdFrontMatter "body" :: [sampleRequirementRule]) none =
      RuleLoader.principlesSection
        (([samplePrincipleRule] ++ [sampleRequirementRule]).filter
          (fun r => r.type == "principle")) ++
      RuleLoader.requirementsSection
        (([samplePrincipleRule] ++ [sampleRequirementRule]).filter
          (fun r => r.type == "requirement"))) :=
  ⟨rfl, rfl, rfl, by decide, by decide, by decide,
    c10_nonstandard_type_omitted [samplePrincipleRule] [sampleRequirementRule]
      sampleWeirdFrontMatter "body" "guideline" rfl rfl rfl (by decide) (by decide)
      (by decide)⟩
